import Mathlib

/-!
Verification development for the CAPTCHA-solving orchestrator of this
repository (the module exporting `getCaptchaToken`).

The repository's orchestration module drives a headless browser session:
a detached challenge-solving loop (the promise built at lines 131-205 of
the module) races a network interceptor (the promise returned at lines
206-223).  Every definition below is a shallow embedding of a concrete
piece of that module; the line numbers in the doc comments refer to the
source file.
-/

namespace SunoCaptcha

/-! ## String utilities modelling the JavaScript string operations used
by the source (`String.prototype.includes`, `toLowerCase`, and
`split(sep).pop()`). -/

/-- `startsWithSeg pat l` is true when `pat` is an initial segment of `l`.
Used to model JavaScript substring search. -/
def startsWithSeg : List Char → List Char → Bool
  | [], _ => true
  | _ :: _, [] => false
  | a :: as, b :: bs => a == b && startsWithSeg as bs

/-- `containsSeg pat l` is true when `pat` occurs as a contiguous segment
of `l` (the semantics of JavaScript `l.includes(pat)`). -/
def containsSeg (pat : List Char) : List Char → Bool
  | [] => pat.isEmpty
  | c :: t => startsWithSeg pat (c :: t) || containsSeg pat t

/-- `containsSubstr s pat` models the JavaScript expression
`s.includes(pat)`. -/
def containsSubstr (s pat : String) : Bool :=
  containsSeg pat.data s.data

/-- Models JavaScript `s.toLowerCase()` (ASCII case folding, which is all
the source compares against). -/
def lowerStr (s : String) : String :=
  ⟨s.data.map Char.toLower⟩

/-- The suffix of `l` that follows the last occurrence of `sep`, or `none`
when `sep` does not occur.  The recursion prefers occurrences found later
in the list, so the returned suffix follows the occurrence with the
greatest starting index. -/
def tailAfterLast (sep : List Char) : List Char → Option (List Char)
  | [] => none
  | c :: t =>
    match tailAfterLast sep t with
    | some r => some r
    | none =>
      if startsWithSeg sep (c :: t) then some (List.drop sep.length (c :: t))
      else none

/-- Models the JavaScript composite `s.split(sep).pop()` for a separator
that cannot overlap itself (true of `"Bearer "`, whose first character
occurs nowhere else in it): the last element of the split is the text
after the final occurrence of the separator, or the whole string when the
separator does not occur. -/
def jsSplitPop (sep s : String) : String :=
  match tailAfterLast sep.data s.data with
  | some r => ⟨r⟩
  | none => s

/-- Source line 214: `request.headers().authorization.split('Bearer ').pop()`
applied to a present authorization header value. -/
def bearerFrom (auth : String) : String :=
  jsSplitPop "Bearer " auth

/-! ## Data model -/

/-- A 2-D point of a solving-service solution (`captcha.data[i]`, whose
`x`/`y` are converted to numbers with unary `+` in the source). -/
structure Point where
  x : Int
  y : Int
deriving Repr, DecidableEq

/-- A solution returned by `solver.coordinates`: the opaque identifier
(`captcha.id`, used for `solver.badReport`) and the ordered point list
(`captcha.data`). -/
structure Solution where
  id : Nat
  data : List Point
deriving Repr, DecidableEq

/-- The origin of the challenge container's bounding box
(`challenge.boundingBox()`); only `x` and `y` are read by the source. -/
structure Box where
  x : Int
  y : Int
deriving Repr, DecidableEq

/-- An observable pointer-level action performed by one pass of the
challenge loop.  `pause` carries the dwell duration in tenths of a
time-unit (`sleep(1.1)` at source line 179 is `pause 11`); `moveSteps`
carries the interpolation step count (`{ steps: 30 }` at line 180). -/
inductive Event where
  | move (x y : Int)
  | down
  | pause (tenths : Nat)
  | moveSteps (x y : Int) (steps : Nat)
  | up
  | clickAt (x y : Int)
  | submit
  | createBtn
deriving Repr, DecidableEq

/-! ## TokenInterceptor: the route handler registered at source lines
207-222 on the pattern `**/api/generate/v2/**`. -/

/-- The data of a matched outgoing request that the handler reads:
the `authorization` header (absent headers are `none`) and the `token`
field of the JSON body. -/
structure InterceptedRequest where
  authorization : Option String
  bodyToken : Option String
deriving Repr, DecidableEq

/-- The observable effects of one execution of the route handler.
`settle` is the settlement of the promise returned by `getCaptchaToken`:
`some (.ok t)` when the handler resolved with `t`, `some (.error ())`
when it rejected (the thrown error is environment text, abstracted to
`Unit`), `none` would mean it left the promise pending (it never does). -/
structure HandlerEffects where
  routeAborted : Bool
  browserClosed : Bool
  controllerAborted : Bool
  callbackCalls : List String
  settle : Option (Except Unit (Option String))

/-- Shallow embedding of the route handler (source lines 208-221):
`route.abort()`, `browser.browser()?.close()` and `controller.abort()`
run unconditionally first (the context was created by `launch`, so
`browser()` is non-null and close is invoked); then
`request.headers().authorization.split('Bearer ').pop()` — which throws a
`TypeError` when the header is absent, landing in the `catch` that
rejects — then `if (newAuthToken) onNewToken(newAuthToken)` (JavaScript
truthiness: the empty string does not trigger the callback), and finally
`resolve(request.postDataJSON().token)`. -/
def routeHandler (req : InterceptedRequest) : HandlerEffects :=
  match req.authorization with
  | none =>
    { routeAborted := true
      browserClosed := true
      controllerAborted := true
      callbackCalls := []
      settle := some (Except.error ()) }
  | some auth =>
    let tok := bearerFrom auth
    { routeAborted := true
      browserClosed := true
      controllerAborted := true
      callbackCalls := if tok == "" then [] else [tok]
      settle := some (Except.ok req.bodyToken) }

/-! ## SolutionRequester: the bounded retry loop at source lines 143-163. -/

/-- Shallow embedding of `for (let j = 0; j < 3; j++) { try { ... captcha =
await solver.coordinates(payload); break; } catch (err) { if (j != 2)
retry else throw err; } }`.  `attempt j` is the outcome of the `j`-th
try-body (screenshot, optional instruction read, and the solving-service
call all live inside the retried `try`).  Returns the resulting solution
or propagated error together with the number of attempts performed. -/
def solveRetry (attempt : Nat → Except String Solution) :
    Except String Solution × Nat :=
  match attempt 0 with
  | .ok s => (.ok s, 1)
  | .error _ =>
    match attempt 1 with
    | .ok s => (.ok s, 2)
    | .error _ =>
      match attempt 2 with
      | .ok s => (.ok s, 3)
      | .error e => (.error e, 3)

/-! ## PointerActuator: the drag loop at source lines 174-182 and the
selection loop at lines 185-187. -/

/-- Consecutive (start, end) pairs of the solution's point list, exactly
as the loop `for (let i = 0; i < captcha.data.length; i += 2)` reads
`data[i]` and `data[i+1]` (only reached with an even-length list). -/
def dragPairs : List Point → List (Point × Point)
  | p1 :: p2 :: rest => (p1, p2) :: dragPairs rest
  | _ => []

/-- The pointer sequence one iteration of the drag loop performs (source
lines 177-181): move to the absolute start point, press, dwell
`sleep(1.1)`, move to the absolute end point with `{ steps: 30 }`,
release.  Absolute coordinates are the bounding-box origin plus the
solution point's offsets. -/
def dragStep (box : Box) (pr : Point × Point) : List Event :=
  [ Event.move (box.x + pr.1.x) (box.y + pr.1.y)
  , Event.down
  , Event.pause 11
  , Event.moveSteps (box.x + pr.2.x) (box.y + pr.2.y) 30
  , Event.up ]

/-- All pointer actions of the drag branch, pairs processed in the order
returned by the solving service. -/
def dragEvents (box : Box) (data : List Point) : List Event :=
  (dragPairs data).flatMap (dragStep box)

/-- The selection branch (source lines 185-187): one click per returned
point, offset within the challenge container. -/
def selectionEvents (data : List Point) : List Event :=
  data.map (fun d => Event.clickAt d.x d.y)

/-! ## The submit step, source lines 189-194.

`click(cursor, ghostCursorEnabled, frame.locator('.button-submit'))` is
invoked WITHOUT `await`; only a `.catch` is attached.  On a rejection
whose message includes `'viewport'` the handler fires one click on the
top-level Create `button` (again detached); on any other rejection the
handler re-throws, but the rethrown error only rejects the detached
`.catch`-chain promise, which nothing consumes — an unhandled rejection.
Either way the `while` loop proceeds to its next iteration. -/

/-- The observable effects of the submit step of one pass. `performed`
lists the pointer actions that actually happened, `createAttempts` counts
clicks issued on the alternate (Create) control, and `unhandled` lists
error messages that escaped into detached promise chains. -/
structure SubmitEffects where
  performed : List Event
  createAttempts : Nat
  unhandled : List String
deriving Repr, DecidableEq

/-- Shallow embedding of the submit step.  `submitRes` is the outcome of
the submit-button click, `createRes` of the alternate Create click (only
consulted on a viewport failure). -/
def submitStep (submitRes createRes : Except String Unit) : SubmitEffects :=
  match submitRes with
  | .ok _ => { performed := [Event.submit], createAttempts := 0, unhandled := [] }
  | .error msg =>
    if containsSubstr msg "viewport" then
      match createRes with
      | .ok _ => { performed := [Event.createBtn], createAttempts := 1, unhandled := [] }
      | .error m2 => { performed := [], createAttempts := 1, unhandled := [m2] }
    else
      { performed := [], createAttempts := 0, unhandled := [msg] }

/-! ## ChallengeLoop: one pass of the `while (true)` loop, source lines
138-195. -/

/-- The environment's responses to the operations one pass performs:
`waitResult` for `waitForRequests(page, controller.signal)`,
`promptText` for `challenge.locator('.prompt-text').first().innerText()`,
`solveAttempt j` for the `j`-th body of the solving retry loop,
`boundingBox` for `challenge.boundingBox()` (which can itself throw, or
return `null`), and the two click outcomes of the submit step. -/
structure IterEnv where
  waitResult : Except String Unit
  promptText : Except String String
  solveAttempt : Nat → Except String Solution
  boundingBox : Except String (Option Box)
  submitResult : Except String Unit
  createResult : Except String Unit

/-- How one pass of the loop ends: `next w` continues the `while` loop
with `wait` flag `w`; `exit msg` throws `msg` to the loop's outer
`catch` (source line 196). -/
inductive PassOutcome where
  | next (wait : Bool)
  | exit (msg : String)
deriving Repr, DecidableEq

/-- The observable trace of one pass: whether the network-quiescence wait
ran, how many solving attempts were made, the `solver.badReport` calls,
the pointer actions performed, the alternate-submit clicks, the error
messages lost to detached promises, and the outcome. -/
structure PassTrace where
  waited : Bool
  solverCalls : Nat
  badReports : List Nat
  performed : List Event
  createAttempts : Nat
  unhandled : List String
  outcome : PassOutcome
deriving Repr, DecidableEq

/-- A pass that ends by throwing `msg` after `calls` solving attempts. -/
def exitTrace (waited : Bool) (calls : Nat) (msg : String) : PassTrace :=
  { waited := waited, solverCalls := calls, badReports := [], performed := []
  , createAttempts := 0, unhandled := [], outcome := PassOutcome.exit msg }

/-- The tail of one pass after the solution is obtained: source lines
164-194, with `drag` the already-computed classification Bool of line 141.

* drag branch — lines 164-183: `boundingBox()` null-check throwing
  `'.challenge-container boundingBox is null!'` (the null-check precedes
  the parity check), the odd-point-count guard (`captcha.data.length % 2`)
  that calls `solver.badReport`, sets `wait = false` and `continue`s —
  performing no pointer action with that solution — then the drag loop
  and `wait = true`;
* selection branch — lines 184-188 (the `wait` flag is left unchanged);
* the detached submit step — lines 189-194. -/
def passAfterSolve (env : IterEnv) (wait : Bool) (drag : Bool)
    (captcha : Solution) (n : Nat) : PassTrace :=
  if drag then
    match env.boundingBox with
    | .error e => exitTrace wait n e
    | .ok none => exitTrace wait n ".challenge-container boundingBox is null!"
    | .ok (some box) =>
      if captcha.data.length % 2 == 1 then
        { waited := wait, solverCalls := n, badReports := [captcha.id]
        , performed := [], createAttempts := 0, unhandled := []
        , outcome := PassOutcome.next false }
      else
        let sub := submitStep env.submitResult env.createResult
        { waited := wait, solverCalls := n, badReports := []
        , performed := dragEvents box captcha.data ++ sub.performed
        , createAttempts := sub.createAttempts, unhandled := sub.unhandled
        , outcome := PassOutcome.next true }
  else
    let sub := submitStep env.submitResult env.createResult
    { waited := wait, solverCalls := n, badReports := []
    , performed := selectionEvents captcha.data ++ sub.performed
    , createAttempts := sub.createAttempts, unhandled := sub.unhandled
    , outcome := PassOutcome.next wait }

/-- Shallow embedding of one pass of the `while (true)` body (source
lines 138-195), entered with the current value of the `wait` flag:

* `if (wait) await waitForRequests(page, controller.signal)` — line 139;
* `const drag = (await ...innerText()).toLowerCase().includes('drag')` — line 141;
* the solving retry loop — lines 143-163;
* then the post-solve tail `passAfterSolve` (lines 164-194). -/
def runPass (env : IterEnv) (wait : Bool) : PassTrace :=
  match (if wait then env.waitResult else Except.ok ()) with
  | .error e => exitTrace wait 0 e
  | .ok _ =>
    match env.promptText with
    | .error e => exitTrace wait 0 e
    | .ok txt =>
      match solveRetry env.solveAttempt with
      | (.error e, n) => exitTrace wait n e
      | (.ok captcha, n) =>
        passAfterSolve env wait (containsSubstr (lowerStr txt) "drag") captcha n

/-! ## The loop's terminal classification (source lines 196-201) and the
run-level composition of the two promise chains. -/

/-- Source line 197: `e.message.includes('been closed') || e.message ==
'AbortError'` — the condition under which the loop's outer `catch`
resolves the loop promise instead of rejecting it. -/
def loopCatchResolve (msg : String) : Bool :=
  containsSubstr msg "been closed" || msg == "AbortError"

/-- How the challenge-loop promise settles. -/
inductive LoopSettle where
  | resolvedClean
  | rejectedWith (msg : String)
deriving Repr, DecidableEq

/-- Source lines 196-201: resolve on a graceful message, otherwise reject
with the error. -/
def loopCatch (msg : String) : LoopSettle :=
  if loopCatchResolve msg then LoopSettle.resolvedClean
  else LoopSettle.rejectedWith msg

/-- A terminal path of a whole run.  `success req loopMsg`: the
interceptor matched request `req` (closing the session), and the detached
loop afterwards ended with an error carrying `loopMsg` (a page operation
failing with a been-closed message, the aborted wait, or a still-in-flight
solving-service call failing with its own message).  `fatal msg`: the loop
promise REJECTED with `msg` before any interceptor match (by source line
197 this entails `loopCatchResolve msg = false`), so the `.catch` at
lines 202-205 ran.  A graceful loop exit without a match cannot occur:
only the route handler closes the session or aborts the signal. -/
inductive RunTerminal where
  | success (req : InterceptedRequest) (loopMsg : String)
  | fatal (msg : String)

/-- Number of invocations of the browser-close operation on a terminal
path: the route handler's `browser.browser()?.close()` (line 211) plus,
when the loop promise rejects, the `.catch` handler's
`browser.browser()?.close()` (line 203).  On the success path the loop's
subsequent error is classified by `loopCatchResolve` (line 197): a
graceful message resolves the loop, so the `.catch` does not run. -/
def closeCalls : RunTerminal → Nat
  | .success req loopMsg =>
    (if (routeHandler req).browserClosed then 1 else 0)
    + (if loopCatchResolve loopMsg then 0 else 1)
  | .fatal _ => 1

/-- Settlement of the promise `getCaptchaToken` returns, per terminal
path.  Only the route handler resolves or rejects it (source lines
206-223); the loop's `.catch` (lines 202-205) re-throws into a detached
chain that is never joined with the returned promise, so on the fatal
path the returned promise stays pending forever (`none`). -/
def returnedSettlement : RunTerminal → Option (Except Unit (Option String))
  | .success req _ => (routeHandler req).settle
  | .fatal _ => none

/-! ## CancellationSignal model.

`controller` is an `AbortController` (source line 130).  Its signal is a
monotone latch: `abort()` sets it and further `abort()` calls leave it
set.  `flips` counts the transitions of the latch along a sequence of
events (`true` = an `abort()` call, `false` = any other step). -/

/-- State transitions of the abort latch: starting from state `st`, fold
the event list, counting how many events change the state. -/
def flips (st : Bool) : List Bool → Nat
  | [] => 0
  | e :: es =>
    let st2 := st || e
    (if st2 == st then 0 else 1) + flips st2 es

/-- The suspension points of one pass of the challenge loop, i.e. the
`await`ed operations of source lines 138-195 (the detached submit click
suspends in its own chain). -/
inductive SuspensionPoint where
  | waitRequests
  | promptInnerText
  | screenshotShot
  | readInstructions
  | solverCall
  | boundingBoxQuery
  | mouseMoveStart
  | mouseButtonDown
  | sleepDwell
  | mouseMoveEnd
  | mouseButtonUp
  | selectionClick
deriving Repr, DecidableEq

/-- Which suspension points receive `controller.signal`: in the source
only `waitForRequests(page, controller.signal)` (line 140) does; no
other awaited call takes the signal. -/
def observesSignal : SuspensionPoint → Bool
  | .waitRequests => true
  | _ => false

/-- The operations the loop issues, classified for the cancellation
interleaving model: `pageOp ptr` acts on the page (`ptr = true` for the
pointer actions: mouse move/down/up and clicks), `solverOp` is a
solving-service call (independent of the page), `timerOp` is `sleep`. -/
inductive OpKind where
  | pageOp (pointer : Bool)
  | solverOp
  | timerOp
deriving Repr, DecidableEq

/-- Whether an operation acts on the page. -/
def isPageOp : OpKind → Bool
  | .pageOp _ => true
  | _ => false

/-- Execution of the remaining operations after cancellation.  The route
handler initiates session close (line 211) BEFORE raising the signal
(line 212), so once the signal is set every page operation rejects
instead of performing; solver calls and timers, which do not touch the
page, may still complete.  The first page operation throws and ends the
pass, performing nothing further. -/
def execCancelled : List OpKind → List OpKind
  | [] => []
  | op :: rest => if isPageOp op then [] else op :: execCancelled rest

/-- The operations actually performed when the cancellation arrives
between the `k`-th and `(k+1)`-th operation of the pass: everything
before the signal runs normally, the remainder runs under
`execCancelled`. -/
def performedWithCancel (ops : List OpKind) (k : Nat) : List OpKind :=
  ops.take k ++ execCancelled (ops.drop k)

/-- Modelled from the spec: the spec's classification phrase "an error
whose message indicates abortion or that the session has already closed"
(section 4.4 / 7), read as plain language: the message mentions that
something is closed or was aborted. -/
def indicatesClosedOrAborted (msg : String) : Bool :=
  containsSubstr msg "closed" || containsSubstr msg "aborted"

/-! ## Concrete inputs used by the claim theorems -/

/-- Scenario E's matched request: header `Authorization: Bearer abc123`,
JSON body `{ "token": "xyz" }`. -/
def reqScenarioE : InterceptedRequest :=
  { authorization := some "Bearer abc123", bodyToken := some "xyz" }

/-- A matched request carrying no authorization header but a well-formed
body. -/
def reqNoAuth : InterceptedRequest :=
  { authorization := none, bodyToken := some "xyz" }

/-- A matched request used for the teardown-count analysis. -/
def reqMatched : InterceptedRequest :=
  { authorization := some "Bearer tok99", bodyToken := some "tok" }

/-! ## Helper lemmas -/

/-- The route handler always closes the session, whatever the request. -/
theorem routeHandler_browserClosed (req : InterceptedRequest) :
    (routeHandler req).browserClosed = true := by
  cases h : req.authorization <;> simp [routeHandler, h]

/-- The route handler always settles the returned promise. -/
theorem routeHandler_settles (req : InterceptedRequest) :
    ((routeHandler req).settle).isSome = true := by
  cases h : req.authorization <;> simp [routeHandler, h]

/-- A latch that is already set never flips again. -/
theorem flips_true_eq_zero (es : List Bool) : flips true es = 0 := by
  induction es with
  | nil => rfl
  | cons e t ih => simp [flips, ih]

/-- A monotone Boolean latch transitions at most once along any event
sequence, from any starting state. -/
theorem flips_le_one (st : Bool) (es : List Bool) : flips st es ≤ 1 := by
  induction es generalizing st with
  | nil => simp [flips]
  | cons e t ih =>
    cases st with
    | true => simp [flips, flips_true_eq_zero]
    | false =>
      cases e with
      | false => simpa [flips] using ih false
      | true => simp [flips, flips_true_eq_zero]

/-- After cancellation no page operation is among the operations that
still perform: the first page operation rejects and ends the pass. -/
theorem execCancelled_no_pageOp (l : List OpKind) :
    (execCancelled l).filter isPageOp = [] := by
  induction l with
  | nil => rfl
  | cons op t ih =>
    cases op with
    | pageOp b => simp [execCancelled, isPageOp]
    | solverOp => simp [execCancelled, isPageOp, ih]
    | timerOp => simp [execCancelled, isPageOp, ih]

/-- Page operations performed in a cancelled run are exactly the page
operations issued before the cancellation point. -/
theorem pageOps_only_before_cancel (ops : List OpKind) (k : Nat) :
    (performedWithCancel ops k).filter isPageOp = (ops.take k).filter isPageOp := by
  simp [performedWithCancel, List.filter_append, execCancelled_no_pageOp]

/-- The number of (start, end) pairs the drag loop processes is half the
point count. -/
theorem dragPairs_length : ∀ l : List Point, (dragPairs l).length = l.length / 2
  | [] => rfl
  | [_] => by simp [dragPairs]
  | _ :: _ :: rest => by
    have ih := dragPairs_length rest
    simp [dragPairs, ih]
    omega

/-! ## Claim theorems -/

/-- C1: for a run whose first matched generation-submission request
carries `Authorization: Bearer abc123` and body `{ "token": "xyz" }`, the
route handler aborts the request (it is never forwarded), closes the
browser session, raises the CancellationSignal, invokes the
credential-refresh callback exactly once with `"abc123"`, and resolves
the operation returned by `getCaptchaToken` with the artifact `"xyz"`. -/
theorem scenarioE_intercept :
    routeHandler reqScenarioE =
      { routeAborted := true, browserClosed := true, controllerAborted := true
      , callbackCalls := ["abc123"], settle := some (Except.ok (some "xyz")) } := rfl

/-- C10 counterexample: a matched request with no authorization header and
a well-formed body `{ "token": "xyz" }` does NOT resolve the run with the
artifact: reading `headers().authorization.split(...)` throws, so the
handler's catch rejects the returned operation. -/
theorem noAuthHeader_rejects_cex :
    reqNoAuth.bodyToken = some "xyz"
    ∧ (routeHandler reqNoAuth).settle = some (Except.error ()) := ⟨rfl, rfl⟩

/-- C10 (amended): for a matched request carrying no authorization header,
the request is still aborted, the session closed and the signal raised
(these precede the extraction), and the callback is not invoked — but the
bearer-extraction expression throws, so the run REJECTS instead of
resolving with the body's artifact. -/
theorem noAuthHeader_behavior :
    routeHandler reqNoAuth =
      { routeAborted := true, browserClosed := true, controllerAborted := true
      , callbackCalls := [], settle := some (Except.error ()) } := rfl

/-- C9 counterexample: the error message `"The operation was aborted"`
(the canonical text of an `AbortError`) plainly indicates that the
operation was aborted, yet the loop's catch REJECTS it: the code compares
the whole message for equality with the literal `'AbortError'` and the
message does not contain `'been closed'`. -/
theorem abortedMessage_rejected_cex :
    indicatesClosedOrAborted "The operation was aborted" = true
    ∧ loopCatch "The operation was aborted"
        = LoopSettle.rejectedWith "The operation was aborted" := ⟨rfl, rfl⟩

/-- C9 (amended): an error propagated inside the challenge loop resolves
the loop as a clean cancellation exactly when its message contains the
substring `'been closed'` or is exactly the string `'AbortError'`; every
other error — including other phrasings that indicate an abort — is
surfaced as a rejection of the loop carrying that error. -/
theorem loopExit_classification (msg : String) :
    (loopCatch msg = LoopSettle.resolvedClean
      ↔ (containsSubstr msg "been closed" = true ∨ msg = "AbortError"))
    ∧ (loopCatch msg = LoopSettle.rejectedWith msg
      ↔ ¬(containsSubstr msg "been closed" = true ∨ msg = "AbortError")) := by
  have hdis : loopCatchResolve msg = true
      ↔ (containsSubstr msg "been closed" = true ∨ msg = "AbortError") := by
    simp [loopCatchResolve]
  constructor
  · rw [← hdis]
    unfold loopCatch
    cases hr : loopCatchResolve msg <;> simp [hr]
  · rw [← hdis]
    unfold loopCatch
    cases hr : loopCatchResolve msg <;> simp [hr]

/-- C7 counterexample: two suspension points of the challenge loop — the
solving-service call and the challenge screenshot — do not receive the
CancellationSignal (in the source only `waitForRequests` takes
`controller.signal`), so cancellation is NOT checked at every suspension
point. -/
theorem suspension_not_checked_cex :
    observesSignal SuspensionPoint.solverCall = false
    ∧ observesSignal SuspensionPoint.screenshotShot = false := ⟨rfl, rfl⟩

/-- C7 (amended): the CancellationSignal, a monotone latch, transitions at
most once per run; the signal is consulted only at the network-quiescence
wait (the sole awaited call receiving `controller.signal`), not at every
suspension point; and because the session is closed before the signal is
raised, every page operation issued after the cancellation point rejects,
so no pointer action (a page operation) is performed after the signal is
set — the page operations performed are exactly those issued before the
cancellation point. -/
theorem cancellation_discipline :
    (∀ evs : List Bool, flips false evs ≤ 1)
    ∧ (∀ p : SuspensionPoint, observesSignal p = true ↔ p = SuspensionPoint.waitRequests)
    ∧ (∀ (ops : List OpKind) (k : Nat),
        (performedWithCancel ops k).filter isPageOp = (ops.take k).filter isPageOp) := by
  refine ⟨fun evs => flips_le_one false evs, fun p => ?_, pageOps_only_before_cancel⟩
  cases p <;> simp [observesSignal]

/-- An iteration environment whose challenge is drag-classified but whose
container bounding box resolves to `null` — one of the fatal loop
errors. -/
def envBoxNull : IterEnv :=
  { waitResult := Except.ok ()
  , promptText := Except.ok "Please drag the shapes into place"
  , solveAttempt := fun _ => Except.ok { id := 7, data := [{ x := 1, y := 2 }] }
  , boundingBox := Except.ok none
  , submitResult := Except.ok ()
  , createResult := Except.ok () }

/-- C2 counterexample: a fatal challenge-loop error is NOT propagated to
the caller through the returned operation.  With `envBoxNull` the pass
throws the bounding-box error — a fatal error of the loop — yet on that
terminal path the settlement of the promise `getCaptchaToken` returned is
`none`: it stays pending forever instead of rejecting with the fatal
error's message (the loop's `.catch` only closes the browser and
re-throws into a chain nothing consumes). -/
theorem fatal_not_propagated_cex :
    (runPass envBoxNull true).outcome
        = PassOutcome.exit ".challenge-container boundingBox is null!"
    ∧ returnedSettlement
        (RunTerminal.fatal ".challenge-container boundingBox is null!") = none := ⟨rfl, rfl⟩

/-- C2 (amended): the operation returned by `getCaptchaToken` settles only
through the interceptor's route handler — on a match it always settles
(resolving with the body artifact, or rejecting when the handler itself
throws); on the fatal-loop path the browser is closed exactly once but
the returned operation never settles, so the fatal error is not
propagated through it and no token is produced. -/
theorem returned_settlement_characterization :
    (∀ (req : InterceptedRequest) (msg : String),
      returnedSettlement (RunTerminal.success req msg) = (routeHandler req).settle
      ∧ ((routeHandler req).settle).isSome = true)
    ∧ (∀ msg : String,
      returnedSettlement (RunTerminal.fatal msg) = none
      ∧ closeCalls (RunTerminal.fatal msg) = 1) :=
  ⟨fun req _ => ⟨rfl, routeHandler_settles req⟩, fun _ => ⟨rfl, rfl⟩⟩

/-- C3 counterexample: on the terminal path where the interceptor matched
(the handler closed the session) and the detached loop afterwards failed
with a solving-service error — a message that neither contains
`'been closed'` nor equals `'AbortError'`, e.g. a still-in-flight
`solver.coordinates` call failing after the match — the close operation
is invoked twice: once by the route handler (line 211) and once by the
loop's rejection handler (line 203), refuting "never more than once". -/
theorem close_invoked_twice_cex :
    loopCatchResolve "ERROR_CAPTCHA_UNSOLVABLE" = false
    ∧ closeCalls (RunTerminal.success reqMatched "ERROR_CAPTCHA_UNSOLVABLE") = 2 := ⟨rfl, rfl⟩

/-- C3 (amended): the close operation is invoked at least once on every
terminal path (no leaked session); it is invoked exactly once on the
fatal path, and exactly once on the interceptor-success path whenever the
loop's subsequent exit is classified graceful (a `'been closed'` /
`'AbortError'` message, the normal consequence of the session having been
closed); only a non-graceful loop failure after the match adds a second,
idempotent close invocation. -/
theorem close_teardown_policy :
    (∀ rt : RunTerminal, 1 ≤ closeCalls rt)
    ∧ (∀ (req : InterceptedRequest) (msg : String),
        loopCatchResolve msg = true → closeCalls (RunTerminal.success req msg) = 1)
    ∧ (∀ msg : String, closeCalls (RunTerminal.fatal msg) = 1) := by
  refine ⟨?_, ?_, fun _ => rfl⟩
  · intro rt
    cases rt with
    | success req msg =>
      simp [closeCalls, routeHandler_browserClosed req]
    | fatal msg => simp [closeCalls]
  · intro req msg h
    simp [closeCalls, routeHandler_browserClosed req, h]

/-- C3 witness: the graceful-success conjunct at a concrete input — the
loop's post-close error carries the standard been-closed message, and the
close count is 1. -/
theorem close_teardown_policy_witness :
    closeCalls (RunTerminal.success reqMatched
      "Target page, context or browser has been closed") = 1 :=
  close_teardown_policy.2.1 reqMatched
    "Target page, context or browser has been closed" rfl

/-- An iteration whose submit click fails with a non-viewport error. -/
def envSubmitDetached : IterEnv :=
  { waitResult := Except.ok ()
  , promptText := Except.ok "Select all images with a bicycle"
  , solveAttempt := fun _ => Except.ok { id := 3, data := [{ x := 10, y := 20 }] }
  , boundingBox := Except.ok (some { x := 0, y := 0 })
  , submitResult := Except.error "Element is not attached to the DOM"
  , createResult := Except.ok () }

/-- The same iteration but with a viewport-classified submit failure. -/
def envSubmitViewport : IterEnv :=
  { envSubmitDetached with
    submitResult := Except.error "element is outside of the viewport" }

/-- C6: evaluation at the failing input.  A non-viewport submit error is
NOT fatal for the run: the submit click is invoked without `await`, so the
`throw e` inside its `.catch` only rejects a detached promise chain
(recorded in `unhandled`) and the pass continues to the next iteration —
the loop is not terminated and the loop-level teardown is not triggered.
The viewport case behaves as specified: exactly one retry through the
alternate Create control and the iteration does not fail. -/
theorem submit_error_not_fatal :
    ((runPass envSubmitDetached true).outcome = PassOutcome.next true
      ∧ (runPass envSubmitDetached true).unhandled
          = ["Element is not attached to the DOM"]
      ∧ (runPass envSubmitDetached true).createAttempts = 0)
    ∧ ((runPass envSubmitViewport true).outcome = PassOutcome.next true
      ∧ (runPass envSubmitViewport true).createAttempts = 1
      ∧ (runPass envSubmitViewport true).unhandled = []) :=
  ⟨⟨rfl, rfl, rfl⟩, ⟨rfl, rfl, rfl⟩⟩

/-- Whatever happens inside a pass, its `waited` field records exactly
the `wait` flag it was entered with (the post-solve tail case). -/
theorem passAfterSolve_waited (env : IterEnv) (w drag : Bool)
    (captcha : Solution) (n : Nat) :
    (passAfterSolve env w drag captcha n).waited = w := by
  unfold passAfterSolve
  cases drag with
  | false => rfl
  | true =>
    cases hb : env.boundingBox with
    | error e => rfl
    | ok ob =>
      cases ob with
      | none => rfl
      | some box =>
        cases hodd : (captcha.data.length % 2 == 1) with
        | false => rfl
        | true => rfl

/-- A pass performs the network-quiescence wait exactly when its `wait`
flag says so: a pass entered with `wait = false` skips the wait. -/
theorem runPass_waited (env : IterEnv) (w : Bool) : (runPass env w).waited = w := by
  unfold runPass
  cases hw : (if w then env.waitResult else Except.ok ()) with
  | error e => rfl
  | ok u =>
    cases hp : env.promptText with
    | error e => rfl
    | ok txt =>
      cases hs : solveRetry env.solveAttempt with
      | mk r n =>
        cases r with
        | error e => rfl
        | ok captcha => exact passAfterSolve_waited env w _ captcha n

/-- The odd-count solution of the C4 counterexample. -/
def solOddNull : Solution :=
  { id := 21, data := [{ x := 4, y := 5 }] }

/-- A drag-classified iteration whose solving service returns the
odd-count solution `solOddNull` but whose container bounding box
resolves to `null`. -/
def envOddNullBox : IterEnv :=
  { waitResult := Except.ok ()
  , promptText := Except.ok "Please drag the pieces"
  , solveAttempt := fun _ => Except.ok solOddNull
  , boundingBox := Except.ok none
  , submitResult := Except.ok ()
  , createResult := Except.ok () }

/-- C4 counterexample: a drag-classified iteration whose solution has an
odd point count but whose container bounding box resolves to `null`.
The null-check (source lines 165-167) runs BEFORE the parity check (line
168), so `solver.badReport` is never called and the pass exits fatally
instead of re-entering solving — refuting the unconditional claim that
every odd-length drag solution triggers exactly one `reportBad` call and
a re-solve. -/
theorem odd_drag_null_box_cex :
    containsSubstr (lowerStr "Please drag the pieces") "drag" = true
    ∧ solOddNull.data.length % 2 = 1
    ∧ (runPass envOddNullBox true).badReports = []
    ∧ (runPass envOddNullBox true).outcome
        = PassOutcome.exit ".challenge-container boundingBox is null!" :=
  ⟨rfl, rfl, rfl, rfl⟩

/-- C4 (amended): in a drag-classified pass whose container bounding box
resolves — the null-check of lines 165-167 precedes the parity check of
line 168, and a null or throwing bounding box instead exits the pass
fatally with no `badReport` — an odd-point-count solution performs no
pointer action, `solver.badReport` is called exactly once with that
solution's identifier, and the pass continues into a fresh solving round
with the wait flag cleared — and a pass entered with a cleared wait flag
does not re-enter the network-quiescence wait.  (Drags are performed
only in the even-count branch: here the performed-event list is
empty.) -/
theorem odd_drag_solution_rejected (env : IterEnv) (w : Bool) (txt : String)
    (sol : Solution) (n : Nat) (box : Box)
    (hw : env.waitResult = Except.ok ())
    (hp : env.promptText = Except.ok txt)
    (hd : containsSubstr (lowerStr txt) "drag" = true)
    (hs : solveRetry env.solveAttempt = (Except.ok sol, n))
    (hb : env.boundingBox = Except.ok (some box))
    (ho : sol.data.length % 2 = 1) :
    runPass env w =
      { waited := w, solverCalls := n, badReports := [sol.id]
      , performed := [], createAttempts := 0, unhandled := []
      , outcome := PassOutcome.next false }
    ∧ (∀ env2 : IterEnv, (runPass env2 false).waited = false) := by
  refine ⟨?_, fun env2 => runPass_waited env2 false⟩
  unfold runPass
  have hw2 : (if w then env.waitResult else Except.ok ()) = Except.ok () := by
    cases w <;> simp [hw]
  rw [hw2, hp, hs]
  show passAfterSolve env w (containsSubstr (lowerStr txt) "drag") sol n = _
  rw [hd]
  unfold passAfterSolve
  rw [hb]
  simp only [ho]
  rfl

/-- The odd-count drag solution of the C4 witness. -/
def solOdd : Solution :=
  { id := 9, data := [{ x := 1, y := 1 }, { x := 2, y := 2 }, { x := 3, y := 3 }] }

/-- A drag-classified iteration whose solving service returns the 3-point
solution `solOdd`. -/
def envOdd : IterEnv :=
  { waitResult := Except.ok ()
  , promptText := Except.ok "Please drag the tiles"
  , solveAttempt := fun _ => Except.ok solOdd
  , boundingBox := Except.ok (some { x := 0, y := 0 })
  , submitResult := Except.ok ()
  , createResult := Except.ok () }

/-- C4 witness: the 3-point drag solution at a concrete input — one
`badReport` with id 9, no pointer action, wait flag cleared. -/
theorem odd_drag_solution_rejected_witness :
    runPass envOdd true =
      { waited := true, solverCalls := 1, badReports := [9]
      , performed := [], createAttempts := 0, unhandled := []
      , outcome := PassOutcome.next false } :=
  (odd_drag_solution_rejected envOdd true "Please drag the tiles" solOdd 1
    { x := 0, y := 0 } rfl rfl rfl rfl rfl rfl).1

/-- C5: for a single challenge the solving-service retry loop performs at
most 3 attempts; a success on any attempt returns that result immediately
without further attempts; each of the first two failures is retried; a
failure on the 3rd attempt propagates as the loop's error, and (when the
wait and prompt steps succeed) that propagated error exits the pass. -/
theorem solve_retry_bound (attempt : Nat → Except String Solution) :
    ((solveRetry attempt).2 ≤ 3)
    ∧ (∀ s, attempt 0 = Except.ok s → solveRetry attempt = (Except.ok s, 1))
    ∧ (∀ e0 s, attempt 0 = Except.error e0 → attempt 1 = Except.ok s →
        solveRetry attempt = (Except.ok s, 2))
    ∧ (∀ e0 e1 s, attempt 0 = Except.error e0 → attempt 1 = Except.error e1 →
        attempt 2 = Except.ok s → solveRetry attempt = (Except.ok s, 3))
    ∧ (∀ e0 e1 e2, attempt 0 = Except.error e0 → attempt 1 = Except.error e1 →
        attempt 2 = Except.error e2 → solveRetry attempt = (Except.error e2, 3))
    ∧ (∀ (env : IterEnv) (w : Bool) (txt e : String) (n : Nat),
        env.waitResult = Except.ok () → env.promptText = Except.ok txt →
        solveRetry env.solveAttempt = (Except.error e, n) →
        (runPass env w).outcome = PassOutcome.exit e) := by
  refine ⟨?_, ?_, ?_, ?_, ?_, ?_⟩
  · unfold solveRetry
    cases h0 : attempt 0 with
    | ok s => simp
    | error e0 =>
      cases h1 : attempt 1 with
      | ok s => simp
      | error e1 =>
        cases h2 : attempt 2 with
        | ok s => simp
        | error e2 => simp
  · intro s h
    simp [solveRetry, h]
  · intro e0 s h0 h1
    simp [solveRetry, h0, h1]
  · intro e0 e1 s h0 h1 h2
    simp [solveRetry, h0, h1, h2]
  · intro e0 e1 e2 h0 h1 h2
    simp [solveRetry, h0, h1, h2]
  · intro env w txt e n hw hp hs
    unfold runPass
    have hw2 : (if w then env.waitResult else Except.ok ()) = Except.ok () := by
      cases w <;> simp [hw]
    rw [hw2, hp, hs]
    rfl

/-- An attempt function that fails on every call, for the C5 witness. -/
def attemptAllFail : Nat → Except String Solution :=
  fun _ => Except.error "ERROR_CAPTCHA_UNSOLVABLE"

/-- C5 witness: three consecutive failures — exactly 3 attempts and the
3rd failure propagates. -/
theorem solve_retry_bound_witness :
    solveRetry attemptAllFail = (Except.error "ERROR_CAPTCHA_UNSOLVABLE", 3) :=
  (solve_retry_bound attemptAllFail).2.2.2.2.1
    "ERROR_CAPTCHA_UNSOLVABLE" "ERROR_CAPTCHA_UNSOLVABLE" "ERROR_CAPTCHA_UNSOLVABLE"
    rfl rfl rfl

/-- C8: in a drag-classified pass with an even point count, the performed
pointer actions are exactly, for each consecutive (start, end) pair in
the order returned by the solving service: move to the bounding-box
origin plus the start offsets, press, dwell 1.1 time-units, move to the
origin plus the end offsets over 30 interpolation steps, release —
followed by the submit step's actions; and the number of processed pairs
is half the point count. -/
theorem drag_sequence (env : IterEnv) (w : Bool) (txt : String)
    (sol : Solution) (n : Nat) (box : Box)
    (hw : env.waitResult = Except.ok ())
    (hp : env.promptText = Except.ok txt)
    (hd : containsSubstr (lowerStr txt) "drag" = true)
    (hs : solveRetry env.solveAttempt = (Except.ok sol, n))
    (hb : env.boundingBox = Except.ok (some box))
    (he : sol.data.length % 2 = 0) :
    (runPass env w).performed =
      (dragPairs sol.data).flatMap (fun pr =>
        [ Event.move (box.x + pr.1.x) (box.y + pr.1.y)
        , Event.down
        , Event.pause 11
        , Event.moveSteps (box.x + pr.2.x) (box.y + pr.2.y) 30
        , Event.up ])
      ++ (submitStep env.submitResult env.createResult).performed
    ∧ (dragPairs sol.data).length = sol.data.length / 2 := by
  refine ⟨?_, dragPairs_length sol.data⟩
  unfold runPass
  have hw2 : (if w then env.waitResult else Except.ok ()) = Except.ok () := by
    cases w <;> simp [hw]
  rw [hw2, hp, hs]
  show (passAfterSolve env w (containsSubstr (lowerStr txt) "drag") sol n).performed = _
  rw [hd]
  unfold passAfterSolve
  rw [hb]
  simp only [he]
  rfl

/-- The 4-point drag solution of the C8 witness: pairs ((1,2),(3,4)) and
((5,6),(7,8)). -/
def solDrag : Solution :=
  { id := 12
  , data := [ { x := 1, y := 2 }, { x := 3, y := 4 }
            , { x := 5, y := 6 }, { x := 7, y := 8 } ] }

/-- A drag-classified iteration whose solving service returns `solDrag`
and whose container sits at (100, 200). -/
def envDrag : IterEnv :=
  { waitResult := Except.ok ()
  , promptText := Except.ok "Please drag the shapes"
  , solveAttempt := fun _ => Except.ok solDrag
  , boundingBox := Except.ok (some { x := 100, y := 200 })
  , submitResult := Except.ok ()
  , createResult := Except.ok () }

/-- C8 witness: the two point-pairs produce exactly two
move-press-dwell-move-release groups at absolute coordinates, in service
order, followed by the submit click. -/
theorem drag_sequence_witness :
    (runPass envDrag true).performed =
      [ Event.move 101 202, Event.down, Event.pause 11
      , Event.moveSteps 103 204 30, Event.up
      , Event.move 105 206, Event.down, Event.pause 11
      , Event.moveSteps 107 208 30, Event.up
      , Event.submit ] := by
  have h := drag_sequence envDrag true "Please drag the shapes" solDrag 1
    { x := 100, y := 200 } rfl rfl rfl rfl rfl rfl
  exact h.1.trans (by decide)

end SunoCaptcha
